import Mathlib

/-!
Verification of the two-phase SEO analysis pipeline
(`server/routes/api/analyze.post.ts`): request handling, evidence
extraction from tool results, synthesis prompt construction, schema
validation, and error mapping.

JavaScript values flowing through the extractor are modelled by a small
JSON value type; JavaScript strings are modelled by Lean `String`
(code points standing in for UTF-16 units), numbers by `Rat`.
-/

namespace AnalyzeRoute

/-- Untyped JSON value, as delivered by the external tool API.
JavaScript `undefined` and `null` are both modelled by `null`
(both are falsy and fail the `typeof x === "object" && x` guard the
code uses, so the distinction is unobservable here). -/
inductive Json where
  | null : Json
  | bool : Bool → Json
  | num : Rat → Json
  | str : String → Json
  | arr : List Json → Json
  | obj : List (String × Json) → Json

/-- JavaScript truthiness of a value (`if (x)`).  `NaN` is not
representable in `Rat`, so `num` is falsy exactly at `0`. -/
def Json.truthy : Json → Bool
  | .null => false
  | .bool b => b
  | .num q => q != 0
  | .str s => s != ""
  | .arr _ => true
  | .obj _ => true

/-- The JS test `typeof x === "object"` (true for `null`, arrays and objects). -/
def Json.isObjectType : Json → Bool
  | .null => true
  | .arr _ => true
  | .obj _ => true
  | _ => false

/-- Property access `x[k]`: a string-keyed lookup that yields a value
only on objects (array index properties are never the keys the code
reads, so array access yields `undefined`, i.e. `none`). -/
def getField : Json → String → Option Json
  | .obj fields, k => fields.lookup k
  | _, _ => none

/-- One tool invocation record inside a step; `result` is the opaque
payload (`result.result` in the code, `undefined` modelled as `.null`). -/
structure ToolResult where
  result : Json

/-- One round of the research session (`step.toolResults` may be
absent, hence `Option`; an empty list is truthy in JS and is traversed). -/
structure Step where
  toolResults : Option (List ToolResult)

/-- Result of the research phase (`generateText`): free-form narrative
`text` plus the step history (`research.steps`, possibly absent). -/
structure ResearchRes where
  text : String
  steps : Option (List Step)

/-- The elements the extractor will scan inside one payload: the code
requires `result.result` truthy and of object type, then
`Array.isArray(resultObj.results)`; otherwise nothing is scanned. -/
def resultsOf (p : Json) : List Json :=
  if p.truthy && p.isObjectType then
    match getField p "results" with
    | some (.arr es) => es
    | _ => []
  else []

/-- The URL extracted from one element of the `results` array:
the code requires `r && typeof r === "object" && "url" in r &&
typeof r.url === "string"`. -/
def urlOfEntry (r : Json) : Option String :=
  match getField r "url" with
  | some (.str u) => some u
  | _ => none

/-- Body of the innermost loop: `sourceUrls.push(r.url)` guarded by the
shape checks on the element `r`. -/
def pushUrl (acc : List String) (r : Json) : List String :=
  match urlOfEntry r with
  | some u => acc ++ [u]
  | none => acc

/-- Body of the middle loop: scan one tool result's payload. -/
def scanToolResult (acc : List String) (tr : ToolResult) : List String :=
  (resultsOf tr.result).foldl pushUrl acc

/-- Body of the outer loop: scan one step's tool results
(`if (step.toolResults)` — absent means skip). -/
def scanStep (acc : List String) (step : Step) : List String :=
  match step.toolResults with
  | none => acc
  | some trs => trs.foldl scanToolResult acc

/-- The Evidence Extractor (`sourceUrls` in the code): a left-to-right
traversal of steps, tool results and elements, pushing each extracted
URL onto the accumulator, exactly mirroring the nested `for` loops
(`if (research.steps)` — absent means no traversal). -/
def sourceUrls (research : ResearchRes) : List String :=
  match research.steps with
  | none => []
  | some steps => steps.foldl scanStep []

/-- The candidate elements of a research session in production order:
for each step, for each tool result, the elements of its well-formed
`results` container (empty contribution for malformed containers). -/
def entriesOf (research : ResearchRes) : List Json :=
  match research.steps with
  | none => []
  | some steps =>
    steps.flatMap (fun step =>
      match step.toolResults with
      | none => []
      | some trs => trs.flatMap (fun tr => resultsOf tr.result))

/-- A payload from which the extractor can take nothing: not a truthy
object (null, non-object, wrong type), or `results` missing or not an
array, or every element of the array lacking a string `url` field. -/
def payloadMalformed (p : Json) : Bool :=
  if p.truthy && p.isObjectType then
    match getField p "results" with
    | some (.arr es) => es.all (fun r => (urlOfEntry r).isNone)
    | _ => true
  else true

theorem pushUrl_fold_eq (es : List Json) (acc : List String) :
    es.foldl pushUrl acc = acc ++ es.filterMap urlOfEntry := by
  induction es generalizing acc with
  | nil => simp
  | cons r rest ih =>
    simp only [List.foldl_cons, List.filterMap_cons, pushUrl]
    cases h : urlOfEntry r <;> simp [h, ih]

theorem scanToolResult_fold_eq (trs : List ToolResult) (acc : List String) :
    trs.foldl scanToolResult acc
    = acc ++ (trs.flatMap (fun tr => resultsOf tr.result)).filterMap urlOfEntry := by
  induction trs generalizing acc with
  | nil => simp
  | cons tr rest ih =>
    simp only [List.foldl_cons, List.flatMap_cons, List.filterMap_append]
    rw [scanToolResult, pushUrl_fold_eq, ih, List.append_assoc]

theorem scanStep_fold_eq (steps : List Step) (acc : List String) :
    steps.foldl scanStep acc
    = acc ++ (steps.flatMap (fun step =>
        match step.toolResults with
        | none => []
        | some trs => trs.flatMap (fun tr => resultsOf tr.result))).filterMap urlOfEntry := by
  induction steps generalizing acc with
  | nil => simp
  | cons step rest ih =>
    simp only [List.foldl_cons, List.flatMap_cons, List.filterMap_append]
    rw [scanStep]
    cases h : step.toolResults with
    | none => simp [ih]
    | some trs =>
      dsimp only
      rw [scanToolResult_fold_eq, ih, List.append_assoc]

/-- The extractor agrees with the declarative description: the URLs of
the well-formed entries, in production order. -/
theorem sourceUrls_eq_entries (research : ResearchRes) :
    sourceUrls research = (entriesOf research).filterMap urlOfEntry := by
  cases h : research.steps with
  | none => simp [sourceUrls, entriesOf, h]
  | some steps => simp only [sourceUrls, entriesOf, h, scanStep_fold_eq, List.nil_append]

/-! ### Substring containment (JS `String.prototype.includes`) -/

/-- Substring occurrence over character lists: `t` occurs in `s`. -/
def listContainsSub : List Char → List Char → Bool
  | [], t => t.isEmpty
  | c :: rest, t => t.isPrefixOf (c :: rest) || listContainsSub rest t

/-- JS `s.includes(t)`. -/
def containsSub (s t : String) : Bool :=
  listContainsSub s.data t.data

theorem listContainsSub_nil (s : List Char) : listContainsSub s [] = true := by
  induction s with
  | nil => rfl
  | cons c rest ih => simp [listContainsSub, List.isPrefixOf]

theorem isPrefixOf_self_append (t b : List Char) : t.isPrefixOf (t ++ b) = true := by
  induction t with
  | nil => simp [List.isPrefixOf]
  | cons c rest ih => simp [List.isPrefixOf, ih]

theorem listContainsSub_self_append (t b : List Char) :
    listContainsSub (t ++ b) t = true := by
  cases t with
  | nil => simp [listContainsSub_nil]
  | cons c rest => simp [listContainsSub, isPrefixOf_self_append]

theorem listContainsSub_append_of_right (a : List Char) {b t : List Char}
    (h : listContainsSub b t = true) : listContainsSub (a ++ b) t = true := by
  induction a with
  | nil => simpa using h
  | cons c rest ih => simp [listContainsSub, ih]

theorem listContainsSub_middle (a t b : List Char) :
    listContainsSub (a ++ (t ++ b)) t = true :=
  listContainsSub_append_of_right a (listContainsSub_self_append t b)

theorem data_of_append (a b : String) : (a ++ b).data = a.data ++ b.data := rfl

/-! ### Synthesis prompt construction -/

/-- JS `s.slice(0, n)` (code points standing in for UTF-16 units). -/
def jsSlice (s : String) (n : Nat) : String := ⟨s.data.take n⟩

/-- JS `s.trim()` (the core whitespace characters; JS trims a slightly
larger set, which no claim depends on). -/
def jsTrim (s : String) : String :=
  ⟨((s.data.dropWhile Char.isWhitespace).reverse.dropWhile Char.isWhitespace).reverse⟩

/-- Fixed prompt text before the embedded content, around the research
narrative. -/
def promptPre (researchText : String) : String :=
  "Based on this research about the content:\n\n" ++ researchText ++
  "\n\nOriginal content analyzed:\n---\n"

/-- Fixed prompt text after the embedded content, before the source
hint. -/
def promptTail : String :=
  "\n---\n\nGenerate a comprehensive SEO analysis with a content score, actionable suggestions, and source URLs.\n\nConsider:\n- Is the content up-to-date compared to recent articles on the topic?\n- Does it offer unique value vs competing content?\n- Are there outdated statistics or claims that need updating?\n- How can readability and engagement be improved?\n\n"

/-- The source-hint segment: the ternary
`sourceUrls.length > 0 ? ... : ""` at the end of the prompt template. -/
def sourceHint (urls : List String) : String :=
  if 0 < urls.length then
    "\nAvailable source URLs from research:\n" ++ String.intercalate "\n" urls
  else ""

/-- The synthesis prompt, the template literal of the `generateObject`
call: research narrative, the content sliced to 2000 units with the
`"..."` marker appended exactly when the content is longer, and the
source hint. -/
def synthPrompt (researchText content : String) (urls : List String) : String :=
  promptPre researchText ++ jsSlice content 2000 ++
  (if 2000 < content.length then "..." else "") ++
  promptTail ++ sourceHint urls

/-- The marker segment of the prompt, named for the decomposition
theorems. -/
def truncMarker (content : String) : String :=
  if 2000 < content.length then "..." else ""

/-! ### Request handler -/

/-- Runtime config (`useRuntimeConfig`); `""` models an unset value
(the nitro config defaults both to `""` via `?? ""`). -/
structure Config where
  agentSecret : String
  aiGatewayApiKey : String

/-- Process environment fallbacks; `""` models an unset variable. -/
structure Env where
  AGENT_SECRET : String
  AI_GATEWAY_API_KEY : String

/-- A value thrown by an external call: a JS `Error` carrying a
message, or any other thrown value (no message). -/
inductive ExtErr where
  | jsError : String → ExtErr
  | nonError : ExtErr

/-- The HTTP error produced by `createError`. -/
structure HttpErr where
  statusCode : Nat
  message : String
deriving DecidableEq

/-- Observable external calls, for the call log. -/
inductive ExtCall where
  | research : ExtCall
  | synthesis : ExtCall
deriving DecidableEq

/-- Impact level of a suggestion (`z.enum(["high","medium","low"])`). -/
inductive Impact where
  | high : Impact
  | medium : Impact
  | low : Impact
deriving DecidableEq

/-- One suggestion of the analysis (`SuggestionSchema`). -/
structure Suggestion where
  title : String
  impact : Impact
  recommendation : String
deriving DecidableEq

/-- The structure produced by the synthesis call, before the numeric
validation of `AnalyzeResponseSchema` (structural shape already met;
the score is unconstrained). -/
structure RawAnalyze where
  contentScore : Rat
  suggestions : List Suggestion
  sources : List String
deriving DecidableEq

/-- Acceptance by `AnalyzeResponseSchema`: `contentScore` within
`.min(0).max(100)`; no clamping or coercion is performed. -/
def schemaAccepts (r : RawAnalyze) : Prop :=
  0 ≤ r.contentScore ∧ r.contentScore ≤ 100

instance (r : RawAnalyze) : Decidable (schemaAccepts r) := by
  unfold schemaAccepts; infer_instance

/-- Modelled from the spec: the schema-constrained generation call
(`generateObject`, external AI SDK, outside this repository's sources)
throws a JS `Error` when the produced structure violates the schema
(§4.1, §4.5 step 5: a violation is an internal error, not a clamp);
its fixed message does not mention the API. -/
def noObjectGeneratedMessage : String :=
  "No object generated: response did not match schema."

/-- The `catch` block: an `Error` whose message includes `"API"` maps
to 503, anything else to 500, each with its fixed message. -/
def mapCatchError : ExtErr → HttpErr
  | .jsError m =>
    if containsSub m "API" then
      ⟨503, "AI service temporarily unavailable. Please try again."⟩
    else
      ⟨500, "Failed to analyze content. Please try again."⟩
  | .nonError => ⟨500, "Failed to analyze content. Please try again."⟩

/-- Resolution `config.agentSecret || process.env.AGENT_SECRET`. -/
def resolveAgentSecret (cfg : Config) (env : Env) : String :=
  if cfg.agentSecret ≠ "" then cfg.agentSecret else env.AGENT_SECRET

/-- Resolution `config.aiGatewayApiKey || process.env.AI_GATEWAY_API_KEY`. -/
def resolveApiKey (cfg : Config) (env : Env) : String :=
  if cfg.aiGatewayApiKey ≠ "" then cfg.aiGatewayApiKey else env.AI_GATEWAY_API_KEY

/-- The JS test `!providedSecret || providedSecret !== agentSecret`: the query
parameter is absent, falsy (empty), or differs from the secret. -/
def authRejects (providedSecret : Option String) (agentSecret : String) : Bool :=
  match providedSecret with
  | none => true
  | some p => p == "" || p != agentSecret

/-- The event handler of `analyze.post.ts`, with the two external
calls injected: `research` is the outcome of the `generateText` call,
`synthesize` maps the synthesis prompt to the outcome of the
`generateObject` call (its raw structure, validated here against the
schema as `generateObject` does).  Returns the HTTP outcome and the
ordered log of external calls attempted. -/
def handler (cfg : Config) (env : Env) (providedSecret : Option String)
    (body : Json) (research : Except ExtErr ResearchRes)
    (synthesize : String → Except ExtErr RawAnalyze) :
    Except HttpErr RawAnalyze × List ExtCall :=
  if resolveAgentSecret cfg env = "" then
    (.error ⟨500, "AGENT_SECRET not configured"⟩, [])
  else if authRejects providedSecret (resolveAgentSecret cfg env) then
    (.error ⟨401, "Invalid or missing agent secret"⟩, [])
  else if resolveApiKey cfg env = "" then
    (.error ⟨500, "AI_GATEWAY_API_KEY not configured"⟩, [])
  else
    match getField body "content" with
    | some (.str s) =>
      if s = "" then
        (.error ⟨400, "Missing required field: content (string)"⟩, [])
      else if jsTrim s = "" then
        (.error ⟨400, "Content cannot be empty"⟩, [])
      else
        match research with
        | .error e => (.error (mapCatchError e), [.research])
        | .ok res =>
          match synthesize (synthPrompt res.text (jsTrim s) (sourceUrls res)) with
          | .error e => (.error (mapCatchError e), [.research, .synthesis])
          | .ok raw =>
            if schemaAccepts raw then
              (.ok raw, [.research, .synthesis])
            else
              (.error (mapCatchError (.jsError noObjectGeneratedMessage)),
               [.research, .synthesis])
    | some _ => (.error ⟨400, "Missing required field: content (string)"⟩, [])
    | none => (.error ⟨400, "Missing required field: content (string)"⟩, [])

/-- HTTP status of an outcome (success serializes as 200). -/
def statusOf : Except HttpErr RawAnalyze → Nat
  | .ok _ => 200
  | .error e => e.statusCode

/-! ### Helper lemmas -/

theorem malformed_entries_none {p : Json} (hp : payloadMalformed p = true) :
    ∀ r ∈ resultsOf p, urlOfEntry r = none := by
  intro r hr
  by_cases hg : (p.truthy && p.isObjectType) = true
  · rcases hf : getField p "results" with _ | v
    · simp [resultsOf, hg, hf] at hr
    · cases v with
      | arr es =>
        simp only [payloadMalformed, hg, if_true, hf, List.all_eq_true] at hp
        simp only [resultsOf, hg, if_true, hf] at hr
        have := hp r hr
        simpa [Option.isNone_iff_eq_none] using this
      | null => simp [resultsOf, hg, hf] at hr
      | bool b => simp [resultsOf, hg, hf] at hr
      | num q => simp [resultsOf, hg, hf] at hr
      | str s => simp [resultsOf, hg, hf] at hr
      | obj fs => simp [resultsOf, hg, hf] at hr
  · simp [resultsOf, hg] at hr

/-- The request body lacks a usable content field: no `content`, a
non-string `content`, or a string that is empty after trimming
(`""` itself trims to `""`). -/
def lacksValidContent (body : Json) : Prop :=
  match getField body "content" with
  | some (.str s) => jsTrim s = ""
  | _ => True

/-- Once configuration, authorization and content validation pass, the
handler runs the research/extraction/synthesis pipeline inside the
`try` block. -/
theorem handler_run (cfg : Config) (env : Env) (q : Option String) (body : Json)
    (ro : Except ExtErr ResearchRes) (so : String → Except ExtErr RawAnalyze) {s : String}
    (h1 : resolveAgentSecret cfg env ≠ "")
    (h2 : authRejects q (resolveAgentSecret cfg env) = false)
    (h3 : resolveApiKey cfg env ≠ "")
    (hc : getField body "content" = some (.str s))
    (hs : jsTrim s ≠ "") :
    handler cfg env q body ro so =
      match ro with
      | .error e => (.error (mapCatchError e), [.research])
      | .ok res =>
        match so (synthPrompt res.text (jsTrim s) (sourceUrls res)) with
        | .error e => (.error (mapCatchError e), [.research, .synthesis])
        | .ok raw =>
          if schemaAccepts raw then (.ok raw, [.research, .synthesis])
          else (.error (mapCatchError (.jsError noObjectGeneratedMessage)),
                [.research, .synthesis]) := by
  have hs0 : s ≠ "" := fun h => hs (by rw [h]; decide)
  unfold handler
  rw [if_neg h1, h2]
  simp only [Bool.false_eq_true, if_false, if_neg h3, hc, if_neg hs0, if_neg hs]

/-! ### Claims -/

/-- C2: the Evidence Extractor returns exactly the `url` strings of
the well-formed entries, in the order the steps and results were
produced, with no deduplication (the output is the order-preserving
`filterMap` of the entry list, so an entry occurring twice contributes
its URL twice). -/
theorem c2_wellformed_urls_in_order (research : ResearchRes) :
    sourceUrls research = (entriesOf research).filterMap urlOfEntry :=
  sourceUrls_eq_entries research

/-- C3: extraction is total (a Lean function) and returns the empty
sequence whenever every tool-result payload is malformed. -/
theorem c3_all_malformed_empty (research : ResearchRes)
    (h : ∀ step ∈ research.steps.getD [], ∀ tr ∈ step.toolResults.getD [],
      payloadMalformed tr.result = true) :
    sourceUrls research = [] := by
  rw [sourceUrls_eq_entries, List.filterMap_eq_nil_iff]
  intro r hr
  cases hs : research.steps with
  | none => simp [entriesOf, hs] at hr
  | some steps =>
    simp only [entriesOf, hs, List.mem_flatMap] at hr
    obtain ⟨step, hstep, hr⟩ := hr
    cases ht : step.toolResults with
    | none => simp [ht] at hr
    | some trs =>
      simp only [ht, List.mem_flatMap] at hr
      obtain ⟨tr, htr, hr⟩ := hr
      have hm : payloadMalformed tr.result = true := by
        have := h step (by simp [hs, hstep]) tr
        simp only [ht, Option.getD_some] at this
        exact this htr
      exact malformed_entries_none hm r hr

/-- C3 witness: a session whose payloads exercise every malformation
(null, wrong type, non-object, missing `results`, non-array container,
and an array whose every element lacks a string `url`) extracts
nothing. -/
theorem c3_witness :
    (∀ step ∈ (some [Step.mk (some [⟨.null⟩, ⟨.str "oops"⟩, ⟨.num 3⟩,
        ⟨.obj [("items", .arr [.obj [("url", .str "https://a")]])]⟩,
        ⟨.obj [("results", .str "not-an-array")]⟩,
        ⟨.obj [("results", .arr [.null, .str "https://b",
          .obj [("link", .str "https://c")], .obj [("url", .num 7)]])]⟩]),
        Step.mk none] : Option (List Step)).getD [],
      ∀ tr ∈ step.toolResults.getD [], payloadMalformed tr.result = true) ∧
    sourceUrls ⟨"narrative", some [Step.mk (some [⟨.null⟩, ⟨.str "oops"⟩, ⟨.num 3⟩,
        ⟨.obj [("items", .arr [.obj [("url", .str "https://a")]])]⟩,
        ⟨.obj [("results", .str "not-an-array")]⟩,
        ⟨.obj [("results", .arr [.null, .str "https://b",
          .obj [("link", .str "https://c")], .obj [("url", .num 7)]])]⟩]),
        Step.mk none]⟩ = [] :=
  ⟨by decide, c3_all_malformed_empty _ (by decide)⟩

/-- C10: only the exact field names `results` (the array container)
and `url` (the string field of an element) are recognized: a payload
with the array under any other key, or an element with its URL under
any other key, contributes nothing, while the exact names do. -/
theorem c10_exact_field_names :
    (∀ k es, k ≠ "results" →
      sourceUrls ⟨"", some [Step.mk (some [⟨.obj [(k, .arr es)]⟩])]⟩ = []) ∧
    (∀ k u, k ≠ "url" →
      sourceUrls ⟨"", some [Step.mk (some
        [⟨.obj [("results", .arr [.obj [(k, .str u)]])]⟩])]⟩ = []) ∧
    (∀ u, sourceUrls ⟨"", some [Step.mk (some
        [⟨.obj [("results", .arr [.obj [("url", .str u)]])]⟩])]⟩ = [u]) := by
  refine ⟨fun k es hk => ?_, fun k u hk => ?_, fun u => ?_⟩
  · have hbeq : ("results" == k) = false := by
      simp only [beq_eq_false_iff_ne]; exact Ne.symm hk
    simp [sourceUrls, scanStep, scanToolResult, resultsOf, getField,
      List.lookup, Json.truthy, Json.isObjectType, hbeq]
  · have hbeq : ("url" == k) = false := by
      simp only [beq_eq_false_iff_ne]; exact Ne.symm hk
    simp [sourceUrls, scanStep, scanToolResult, resultsOf, getField,
      List.lookup, Json.truthy, Json.isObjectType, pushUrl, urlOfEntry, hbeq]
  · simp [sourceUrls, scanStep, scanToolResult, resultsOf, getField,
      List.lookup, Json.truthy, Json.isObjectType, pushUrl, urlOfEntry]

/-- C1: every 200 response carries a `contentScore` within `[0,100]`;
and when the synthesis call produces a structure whose score violates
the bounds (e.g. 150), the schema validation rejects it and the
handler returns 500, never 200 with a clamped value. -/
theorem c1_schema_gate :
    (∀ cfg env q body ro so resp,
        (handler cfg env q body ro so).1 = .ok resp →
        0 ≤ resp.contentScore ∧ resp.contentScore ≤ 100) ∧
    (∀ cfg env q body res raw s,
        resolveAgentSecret cfg env ≠ "" →
        authRejects q (resolveAgentSecret cfg env) = false →
        resolveApiKey cfg env ≠ "" →
        getField body "content" = some (.str s) →
        jsTrim s ≠ "" →
        ¬ schemaAccepts raw →
        (handler cfg env q body (.ok res) (fun _ => .ok raw)).1
          = .error ⟨500, "Failed to analyze content. Please try again."⟩) := by
  constructor
  · intro cfg env q body ro so resp h
    unfold handler at h
    repeat' split at h
    all_goals simp_all [schemaAccepts]
  · intro cfg env q body res raw s h1 h2 h3 hc hs hacc
    rw [handler_run cfg env q body _ _ h1 h2 h3 hc hs]
    simp only [if_neg hacc]
    have : mapCatchError (.jsError noObjectGeneratedMessage)
        = ⟨500, "Failed to analyze content. Please try again."⟩ := by decide
    rw [this]

/-- C1 witness: a synthesis output with `contentScore = 150` on an
otherwise valid request yields a 500 error, not a 200. -/
theorem c1_witness :
    (handler ⟨"secret", "key"⟩ ⟨"", ""⟩ (some "secret")
        (.obj [("content", .str "An article about SEO.")])
        (.ok ⟨"narrative", none⟩) (fun _ => .ok ⟨150, [], []⟩)).1
      = .error ⟨500, "Failed to analyze content. Please try again."⟩ :=
  c1_schema_gate.2 ⟨"secret", "key"⟩ ⟨"", ""⟩ (some "secret")
    (.obj [("content", .str "An article about SEO.")])
    ⟨"narrative", none⟩ ⟨150, [], []⟩ "An article about SEO."
    (by decide) (by decide) (by decide) rfl (by decide)
    (by simp [schemaAccepts]; decide)

/-- C4: on an authorized request whose body lacks a string `content`,
or whose content trims to empty, the handler fails with 400 and no
external call is attempted (the call log is empty). -/
theorem c4_invalid_content_rejected (cfg : Config) (env : Env) (q : Option String)
    (body : Json) (ro : Except ExtErr ResearchRes) (so : String → Except ExtErr RawAnalyze)
    (h1 : resolveAgentSecret cfg env ≠ "")
    (h2 : authRejects q (resolveAgentSecret cfg env) = false)
    (h3 : resolveApiKey cfg env ≠ "")
    (hbad : lacksValidContent body) :
    statusOf (handler cfg env q body ro so).1 = 400 ∧
    (handler cfg env q body ro so).2 = [] := by
  unfold lacksValidContent at hbad
  rcases hc : getField body "content" with _ | v
  · rw [hc] at hbad
    simp [handler, if_neg h1, h2, if_neg h3, hc, statusOf]
  · cases v with
    | str s =>
      rw [hc] at hbad
      by_cases hse : s = ""
      · simp [handler, if_neg h1, h2, if_neg h3, hc, hse, statusOf]
      · simp [handler, if_neg h1, h2, if_neg h3, hc, hse, hbad, statusOf]
    | null => simp [handler, if_neg h1, h2, if_neg h3, hc, statusOf]
    | bool b => simp [handler, if_neg h1, h2, if_neg h3, hc, statusOf]
    | num n => simp [handler, if_neg h1, h2, if_neg h3, hc, statusOf]
    | arr es => simp [handler, if_neg h1, h2, if_neg h3, hc, statusOf]
    | obj fs => simp [handler, if_neg h1, h2, if_neg h3, hc, statusOf]

/-- C4 witness: `{ content: "   " }` on an authorized request gives
400 with zero external calls (and so do a missing and a non-string
`content`). -/
theorem c4_witness :
    (statusOf (handler ⟨"secret", "key"⟩ ⟨"", ""⟩ (some "secret")
        (.obj [("content", .str "   ")]) (.ok ⟨"n", none⟩) (fun _ => .ok ⟨35, [], []⟩)).1 = 400 ∧
      (handler ⟨"secret", "key"⟩ ⟨"", ""⟩ (some "secret")
        (.obj [("content", .str "   ")]) (.ok ⟨"n", none⟩) (fun _ => .ok ⟨35, [], []⟩)).2 = []) ∧
    (statusOf (handler ⟨"secret", "key"⟩ ⟨"", ""⟩ (some "secret")
        (.obj [("content", .str "")]) (.ok ⟨"n", none⟩) (fun _ => .ok ⟨35, [], []⟩)).1 = 400 ∧
      (handler ⟨"secret", "key"⟩ ⟨"", ""⟩ (some "secret")
        (.obj [("content", .str "")]) (.ok ⟨"n", none⟩) (fun _ => .ok ⟨35, [], []⟩)).2 = []) ∧
    (statusOf (handler ⟨"secret", "key"⟩ ⟨"", ""⟩ (some "secret")
        (.obj [("title", .str "x")]) (.ok ⟨"n", none⟩) (fun _ => .ok ⟨35, [], []⟩)).1 = 400 ∧
      (handler ⟨"secret", "key"⟩ ⟨"", ""⟩ (some "secret")
        (.obj [("title", .str "x")]) (.ok ⟨"n", none⟩) (fun _ => .ok ⟨35, [], []⟩)).2 = []) :=
  ⟨c4_invalid_content_rejected _ _ _ _ _ _ (by decide) (by decide) (by decide)
      (by show jsTrim "   " = ""; decide),
   c4_invalid_content_rejected _ _ _ _ _ _ (by decide) (by decide) (by decide)
      (by show jsTrim "" = ""; decide),
   c4_invalid_content_rejected _ _ _ _ _ _ (by decide) (by decide) (by decide)
      (by show True; trivial)⟩

/-- C10 witness: the container key `items` and the element key `link`
are ignored; the exact keys extract the URL. -/
theorem c10_witness :
    sourceUrls ⟨"", some [Step.mk (some
      [⟨.obj [("items", .arr [.obj [("url", .str "https://a")]])]⟩])]⟩ = [] ∧
    sourceUrls ⟨"", some [Step.mk (some
      [⟨.obj [("results", .arr [.obj [("link", .str "https://a")]])]⟩])]⟩ = [] ∧
    sourceUrls ⟨"", some [Step.mk (some
      [⟨.obj [("results", .arr [.obj [("url", .str "https://a")]])]⟩])]⟩
      = ["https://a"] :=
  ⟨c10_exact_field_names.1 "items" _ (by decide),
   c10_exact_field_names.2.1 "link" "https://a" (by decide),
   c10_exact_field_names.2.2 "https://a"⟩

/-- C5 counterexample: with the gateway credential absent
(`resolveApiKey = ""`) but the shared secret configured and the
supplied credential mismatched, the handler returns 401, not the 500
the claim requires for an absent configuration value — the gateway
credential is only examined after the authorization comparison. -/
theorem c5_counterexample :
    resolveApiKey ⟨"secret", ""⟩ ⟨"", ""⟩ = "" ∧
    statusOf (handler ⟨"secret", ""⟩ ⟨"", ""⟩ (some "wrong")
        (.obj [("content", .str "valid content")])
        (.ok ⟨"n", none⟩) (fun _ => .ok ⟨35, [], []⟩)).1 = 401 ∧
    statusOf (handler ⟨"secret", ""⟩ ⟨"", ""⟩ (some "wrong")
        (.obj [("content", .str "valid content")])
        (.ok ⟨"n", none⟩) (fun _ => .ok ⟨35, [], []⟩)).1 ≠ 500 :=
  ⟨rfl, rfl, by decide⟩

/-- C5 amended: an absent shared secret fails 500 regardless of the
supplied credential (so no comparison result can matter); with the
secret configured, a missing, empty or mismatched credential fails
401 even when content is valid; the gateway credential is checked
only after successful authorization, and its absence then fails 500. -/
theorem c5_amended (cfg : Config) (env : Env) (q : Option String) (body : Json)
    (ro : Except ExtErr ResearchRes) (so : String → Except ExtErr RawAnalyze) :
    (resolveAgentSecret cfg env = "" →
      handler cfg env q body ro so
        = (.error ⟨500, "AGENT_SECRET not configured"⟩, [])) ∧
    (resolveAgentSecret cfg env ≠ "" →
      authRejects q (resolveAgentSecret cfg env) = true →
      handler cfg env q body ro so
        = (.error ⟨401, "Invalid or missing agent secret"⟩, [])) ∧
    (resolveAgentSecret cfg env ≠ "" →
      authRejects q (resolveAgentSecret cfg env) = false →
      resolveApiKey cfg env = "" →
      handler cfg env q body ro so
        = (.error ⟨500, "AI_GATEWAY_API_KEY not configured"⟩, [])) := by
  refine ⟨fun h1 => ?_, fun h1 h2 => ?_, fun h1 h2 h3 => ?_⟩
  · simp [handler, h1]
  · simp [handler, h1, h2]
  · simp [handler, h1, h2, h3]

/-- C5 amended witness: the three branches at concrete inputs —
secret unset gives 500 whatever the credential, a wrong credential
gives 401 with valid content, and after successful authorization a
missing gateway credential gives 500. -/
theorem c5_amended_witness :
    handler ⟨"", ""⟩ ⟨"", ""⟩ (some "anything")
        (.obj [("content", .str "valid content")])
        (.ok ⟨"n", none⟩) (fun _ => .ok ⟨35, [], []⟩)
      = (.error ⟨500, "AGENT_SECRET not configured"⟩, []) ∧
    handler ⟨"secret", "key"⟩ ⟨"", ""⟩ (some "wrong")
        (.obj [("content", .str "valid content")])
        (.ok ⟨"n", none⟩) (fun _ => .ok ⟨35, [], []⟩)
      = (.error ⟨401, "Invalid or missing agent secret"⟩, []) ∧
    handler ⟨"secret", ""⟩ ⟨"", ""⟩ (some "secret")
        (.obj [("content", .str "valid content")])
        (.ok ⟨"n", none⟩) (fun _ => .ok ⟨35, [], []⟩)
      = (.error ⟨500, "AI_GATEWAY_API_KEY not configured"⟩, []) :=
  ⟨(c5_amended _ _ _ _ _ _).1 rfl,
   (c5_amended _ _ _ _ _ _).2.1 (by decide) (by decide),
   (c5_amended _ _ _ _ _ _).2.2 (by decide) (by decide) rfl⟩

/-- C6: a failure thrown by an external call maps to 503 exactly when
it is an `Error` whose message includes `"API"`, else 500; both
responses carry a fixed human-readable message, never the raw error
text; and the handler propagates exactly this mapping for a research
failure and for a synthesis failure. -/
theorem c6_error_mapping :
    (∀ e, (mapCatchError e).statusCode = 503 ↔
        ∃ m, e = .jsError m ∧ containsSub m "API" = true) ∧
    (∀ e, mapCatchError e
        = ⟨503, "AI service temporarily unavailable. Please try again."⟩ ∨
      mapCatchError e
        = ⟨500, "Failed to analyze content. Please try again."⟩) ∧
    (∀ cfg env q body so s e,
        resolveAgentSecret cfg env ≠ "" →
        authRejects q (resolveAgentSecret cfg env) = false →
        resolveApiKey cfg env ≠ "" →
        getField body "content" = some (.str s) →
        jsTrim s ≠ "" →
        handler cfg env q body (.error e) so
          = (.error (mapCatchError e), [.research])) ∧
    (∀ cfg env q body res s e,
        resolveAgentSecret cfg env ≠ "" →
        authRejects q (resolveAgentSecret cfg env) = false →
        resolveApiKey cfg env ≠ "" →
        getField body "content" = some (.str s) →
        jsTrim s ≠ "" →
        handler cfg env q body (.ok res) (fun _ => .error e)
          = (.error (mapCatchError e), [.research, .synthesis])) := by
  refine ⟨fun e => ?_, fun e => ?_, ?_, ?_⟩
  · cases e with
    | jsError m =>
      by_cases hm : containsSub m "API" = true
      · simp [mapCatchError, hm]
      · simp [mapCatchError, hm]
    | nonError => simp [mapCatchError]
  · cases e with
    | jsError m =>
      by_cases hm : containsSub m "API" = true
      · simp [mapCatchError, hm]
      · simp [mapCatchError, hm]
    | nonError => simp [mapCatchError]
  · intro cfg env q body so s e h1 h2 h3 hc hs
    rw [handler_run cfg env q body _ _ h1 h2 h3 hc hs]
  · intro cfg env q body res s e h1 h2 h3 hc hs
    rw [handler_run cfg env q body _ _ h1 h2 h3 hc hs]

/-- C6 witness: a research failure whose message mentions the API
maps to 503 with the fixed message; one that does not, and a
synthesis failure that does not, map to 500 with the fixed message. -/
theorem c6_witness :
    handler ⟨"secret", "key"⟩ ⟨"", ""⟩ (some "secret")
        (.obj [("content", .str "valid content")])
        (.error (.jsError "Gateway API error: quota exceeded"))
        (fun _ => .ok ⟨35, [], []⟩)
      = (.error ⟨503, "AI service temporarily unavailable. Please try again."⟩,
         [.research]) ∧
    handler ⟨"secret", "key"⟩ ⟨"", ""⟩ (some "secret")
        (.obj [("content", .str "valid content")])
        (.error (.jsError "socket hang up"))
        (fun _ => .ok ⟨35, [], []⟩)
      = (.error ⟨500, "Failed to analyze content. Please try again."⟩,
         [.research]) ∧
    handler ⟨"secret", "key"⟩ ⟨"", ""⟩ (some "secret")
        (.obj [("content", .str "valid content")])
        (.ok ⟨"n", none⟩) (fun _ => .error .nonError)
      = (.error ⟨500, "Failed to analyze content. Please try again."⟩,
         [.research, .synthesis]) := by
  refine ⟨?_, ?_, ?_⟩
  · rw [c6_error_mapping.2.2.1 ⟨"secret", "key"⟩ ⟨"", ""⟩ (some "secret")
      (.obj [("content", .str "valid content")]) (fun _ => .ok ⟨35, [], []⟩)
      "valid content" (.jsError "Gateway API error: quota exceeded")
      (by decide) (by decide) (by decide) rfl (by decide)]
    rfl
  · rw [c6_error_mapping.2.2.1 ⟨"secret", "key"⟩ ⟨"", ""⟩ (some "secret")
      (.obj [("content", .str "valid content")]) (fun _ => .ok ⟨35, [], []⟩)
      "valid content" (.jsError "socket hang up")
      (by decide) (by decide) (by decide) rfl (by decide)]
    rfl
  · rw [c6_error_mapping.2.2.2 ⟨"secret", "key"⟩ ⟨"", ""⟩ (some "secret")
      (.obj [("content", .str "valid content")]) ⟨"n", none⟩
      "valid content" .nonError
      (by decide) (by decide) (by decide) rfl (by decide)]
    rfl

/-- C9: on a successful request the handler returns the structure the
synthesis call produced, unmodified — with a synthesis outcome fixed
independently of the prompt, the response equals it exactly, whatever
URLs the Evidence Extractor collected from the research steps. -/
theorem c9_synthesis_passthrough (cfg : Config) (env : Env) (q : Option String)
    (body : Json) (res : ResearchRes) (raw : RawAnalyze) (s : String)
    (h1 : resolveAgentSecret cfg env ≠ "")
    (h2 : authRejects q (resolveAgentSecret cfg env) = false)
    (h3 : resolveApiKey cfg env ≠ "")
    (hc : getField body "content" = some (.str s))
    (hs : jsTrim s ≠ "")
    (hacc : schemaAccepts raw) :
    handler cfg env q body (.ok res) (fun _ => .ok raw)
      = (.ok raw, [.research, .synthesis]) := by
  rw [handler_run cfg env q body _ _ h1 h2 h3 hc hs]
  simp [if_pos hacc]

/-- C9 witness: the research steps yield the extracted URL
`https://research-source.example`, yet the 200 body's `sources` is
exactly the synthesis output's `["https://llm-chosen.example"]` —
nothing is merged or substituted. -/
theorem c9_witness :
    sourceUrls ⟨"n", some [Step.mk (some
        [⟨.obj [("results", .arr [.obj [("url", .str "https://research-source.example")]])]⟩])]⟩
      = ["https://research-source.example"] ∧
    handler ⟨"secret", "key"⟩ ⟨"", ""⟩ (some "secret")
        (.obj [("content", .str "valid content")])
        (.ok ⟨"n", some [Step.mk (some
          [⟨.obj [("results", .arr [.obj [("url", .str "https://research-source.example")]])]⟩])]⟩)
        (fun _ => .ok ⟨35, [], ["https://llm-chosen.example"]⟩)
      = (.ok ⟨35, [], ["https://llm-chosen.example"]⟩, [.research, .synthesis]) :=
  ⟨by decide,
   c9_synthesis_passthrough _ _ _ _ _ _ "valid content"
     (by decide) (by decide) (by decide) rfl (by decide)
     (by show ((0 : Rat) ≤ 35 ∧ (35 : Rat) ≤ 100); constructor <;> norm_num)⟩

/-- C7 counterexample: content well under the 2000-unit bound whose
own text contains `"..."` — the synthesis prompt then contains the
marker although nothing was truncated, refuting the claimed
equivalence between marker presence and exceeding the bound. -/
theorem c7_counterexample :
    containsSub (synthPrompt "r" "Wait... what?" []) "..." = true ∧
    ("Wait... what?" : String).length ≤ 2000 := by
  refine ⟨by decide, by decide⟩

/-- C7 amended: the prompt embeds exactly the first 2000 units of the
content, immediately followed by the truncation marker when and only
when the content is strictly longer than 2000 units (nothing is
appended otherwise); consequently the prompt contains the marker
whenever the content exceeds the bound — though it may also contain
it for shorter content whose own text (or narrative) includes it. -/
theorem c7_amended (r c : String) (urls : List String) :
    synthPrompt r c urls
      = promptPre r ++ jsSlice c 2000 ++ truncMarker c ++ promptTail ++ sourceHint urls
    ∧ (truncMarker c = "..." ↔ 2000 < c.length)
    ∧ (truncMarker c = "" ↔ c.length ≤ 2000)
    ∧ (2000 < c.length → containsSub (synthPrompt r c urls) "..." = true) := by
  refine ⟨rfl, ?_, ?_, ?_⟩
  · constructor
    · intro hm
      by_contra hlt
      unfold truncMarker at hm
      rw [if_neg hlt] at hm
      exact absurd hm (by decide)
    · intro hlt
      unfold truncMarker
      rw [if_pos hlt]
  · constructor
    · intro hm
      by_contra hle
      rw [Nat.not_le] at hle
      unfold truncMarker at hm
      rw [if_pos hle] at hm
      exact absurd hm (by decide)
    · intro hle
      unfold truncMarker
      rw [if_neg (Nat.not_lt.mpr hle)]
  · intro h
    unfold containsSub
    have hdata : (synthPrompt r c urls).data
        = (promptPre r ++ jsSlice c 2000).data
          ++ (("..." : String).data ++ (promptTail ++ sourceHint urls).data) := by
      simp only [synthPrompt, if_pos h, data_of_append, List.append_assoc]
    rw [hdata]
    exact listContainsSub_middle _ _ _

/-- C7 amended witness: a 2001-character content is truncated and the
prompt contains the marker. -/
theorem c7_amended_witness :
    2000 < (⟨List.replicate 2001 'a'⟩ : String).length ∧
    containsSub (synthPrompt "r" ⟨List.replicate 2001 'a'⟩ []) "..." = true :=
  ⟨by show 2000 < (List.replicate 2001 'a').length; rw [List.length_replicate]; decide,
   (c7_amended "r" ⟨List.replicate 2001 'a'⟩ []).2.2.2
     (by show 2000 < (List.replicate 2001 'a').length; rw [List.length_replicate]; decide)⟩

/-- C8: the synthesis prompt is the base prompt followed by the
source-hint section, which is empty exactly when the extracted list
is empty, and otherwise is the hint header with the URLs embedded
verbatim, newline-joined. -/
theorem c8_source_hint (r c : String) (urls : List String) :
    synthPrompt r c urls
      = (promptPre r ++ jsSlice c 2000 ++ truncMarker c ++ promptTail) ++ sourceHint urls
    ∧ (sourceHint urls = "" ↔ urls = [])
    ∧ (urls ≠ [] →
        sourceHint urls
          = "\nAvailable source URLs from research:\n" ++ String.intercalate "\n" urls) := by
  refine ⟨rfl, ?_, fun hne => ?_⟩
  · constructor
    · intro h0
      by_contra hne
      have hlen : 0 < urls.length := List.length_pos.mpr hne
      unfold sourceHint at h0
      rw [if_pos hlen] at h0
      have hd := congrArg String.data h0
      rw [data_of_append] at hd
      rcases List.append_eq_nil.mp hd with ⟨hh, _⟩
      exact absurd hh (by decide)
    · intro h0
      subst h0
      simp [sourceHint]
  · unfold sourceHint
    rw [if_pos (List.length_pos.mpr hne)]

/-- C8 witness: one extracted URL produces exactly the hint section;
its text embeds the URL verbatim. -/
theorem c8_witness :
    sourceHint ["https://nasa.gov/moon-facts"]
      = "\nAvailable source URLs from research:\nhttps://nasa.gov/moon-facts" ∧
    sourceHint ["https://nasa.gov/moon-facts"] ≠ "" := by
  constructor
  · rw [(c8_source_hint "r" "c" ["https://nasa.gov/moon-facts"]).2.2 (by decide)]
    decide
  · intro h
    exact absurd ((c8_source_hint "r" "c" ["https://nasa.gov/moon-facts"]).2.1.mp h)
      (by decide)

end AnalyzeRoute
